import Mathlib

/-!
Shallow embedding of `src/app.py` (quran-explainer backend).

The program is a Flask app with one JSON endpoint, `POST /explain`
(`explain_ayah`), which validates the request body, fetches a verse
translation (`get_ayah_text`), fetches three commentary texts
(`get_tafsir_data`), assembles a prompt (`generate_explanation_prompt`),
and calls a hosted completion API.

Modelling decisions:
* Outbound HTTP behaviour is a "world": a function from the request
  parameters to the response the endpoint would give.  Each outbound call
  is recorded in an `OutCall` trace.
* Python exceptions are explicit: fallible code returns `Except PyExn`.
  `requests.get`, `raise_for_status` and `response.json()` raise
  `requests.exceptions.RequestException` (for requests >= 2.27 the
  JSON-decode error is a `RequestException` subclass); `.get`/`.strip`
  attribute access on a non-dict / non-string value raises
  `AttributeError`, which the source never catches.
* JSON response bodies are modelled at the shape the code reads: a body is
  either not a JSON object (`notObj`, on which `.get` raises) or an object
  with the fields the code consults.  The `text` field of a tafsir body is
  either a string or a non-string value (`notStr`, on which `.strip()`
  raises).
* Machine integers do not matter here (Python ints are unbounded), so
  chapter/verse are `Int`.  JSON floats are modelled as exact decimal
  literals `m * 10^(-e)`; Python `int()` on a float truncates toward zero.
-/

/-- Python exceptions that can arise in the translated code. -/
inductive PyExn
  | requestExn
  | attrError
  | typeError
deriving DecidableEq

/-- Result of the completion call `groq_client.chat.completions.create`:
either generated text (`choices[0].message.content`) or an exception
carrying `str(e)`. -/
inductive GroqResult
  | ok (text : String)
  | exn (msg : String)
deriving DecidableEq

/-- An outbound call made by the service: one translation fetch, one
commentary fetch (identified by the source slug), or one completion call. -/
inductive OutCall
  | quran (surah ayah : Int)
  | tafsir (slug : String) (surah ayah : Int)
  | groq (prompt : String)
deriving DecidableEq

/-- A JSON reply of the `/explain` route together with its status code. -/
inductive HttpReply
  | json200 (explanation : String)
  | json400 (err : String)
  | json500 (err : String)
deriving DecidableEq

/-- The `data` member of a translation response body: a JSON object with an
optional string `text` field, or some non-object JSON value (on which
`.get` raises `AttributeError`). -/
inductive TransDataMem
  | notObj
  | obj (text : Option String)

/-- Parsed JSON body of the translation endpoint: a JSON object with
optional `code` and `data` members, or a non-object JSON value. -/
inductive TransBody
  | notObj
  | obj (code : Option Int) (dataMem : Option TransDataMem)

/-- Behaviour of the translation endpoint for one request: the transport
layer raises (connection error / timeout), or a response arrives with a
status code and a body (`none` = body that is not decodable JSON). -/
inductive TransResp
  | transportError
  | resp (status : Nat) (body : Option TransBody)

/-- The `text` member of a tafsir response body: a string, or a non-string
JSON value (on which `.strip()` raises `AttributeError`). -/
inductive TafsirTextVal
  | str (s : String)
  | notStr

/-- Parsed JSON body of a tafsir endpoint. -/
inductive TafsirBody
  | notObj
  | obj (text : Option TafsirTextVal)

/-- Behaviour of a tafsir endpoint for one request. -/
inductive TafsirResp
  | transportError
  | resp (status : Nat) (body : Option TafsirBody)

/-- A JSON value as it can occur in the request body (`request.get_json()`).
Floats are exact decimal literals: `jdec m e` denotes `m * 10^(-e)`. -/
inductive JVal
  | jnull
  | jbool (b : Bool)
  | jint (n : Int)
  | jdec (m : Int) (e : Nat)
  | jstr (s : String)
  | jarr (xs : List JVal)
  | jobj (fields : List (String × JVal))

/-- The environment of one request: what each outbound endpoint would
reply.  `groq` maps the submitted prompt to the completion outcome. -/
structure World where
  quran : Int → Int → TransResp
  tafsir : String → Int → Int → TafsirResp
  groq : String → GroqResult

/-! ## Python string helpers -/

/-- ASCII whitespace as recognised by Python `str.strip()` / `int()`:
space, tab, newline, carriage return, vertical tab, form feed
(unicode whitespace is out of scope). -/
def isPyWS (c : Char) : Bool :=
  c = ' ' || c = '\t' || c = '\n' || c = '\r' || c = '\x0b' || c = '\x0c'

/-- Python `str.strip()` (ASCII whitespace). -/
def pyStrip (s : String) : String :=
  String.mk (((s.toList.dropWhile isPyWS).reverse.dropWhile isPyWS).reverse)

/-- Digit-run acceptor for Python `int(str)`: digits with single
underscores allowed between digits only. `acc` is the value read so far. -/
def digitsCore : List Char → Nat → Option Nat
  | [], acc => some acc
  | c :: cs, acc =>
    if c.isDigit then digitsCore cs (acc * 10 + (c.toNat - 48))
    else if c = '_' then
      match cs with
      | [] => none
      | d :: _ => if d.isDigit then digitsCore cs acc else none
    else none

/-- A digit run must start with a digit (no leading underscore, nonempty). -/
def parseUDigits : List Char → Option Nat
  | [] => none
  | c :: cs => if c.isDigit then digitsCore cs (c.toNat - 48) else none

/-- Python `int(s)` for a string `s`: strip whitespace, optional sign,
base-10 digits with underscores; `none` models `ValueError`. -/
def pyIntOfString (s : String) : Option Int :=
  match ((s.toList.dropWhile isPyWS).reverse.dropWhile isPyWS).reverse with
  | '+' :: r => (parseUDigits r).map (fun n => (n : Int))
  | '-' :: r => (parseUDigits r).map (fun n => -(n : Int))
  | r => (parseUDigits r).map (fun n => (n : Int))

/-- Python `int(v)` on a JSON value: ints pass through, bools become 0/1,
floats truncate toward zero, strings are parsed; `none` models the
`ValueError`/`TypeError` that `explain_ayah` catches. -/
def pyInt : JVal → Option Int
  | JVal.jnull => none
  | JVal.jbool b => some (if b then 1 else 0)
  | JVal.jint n => some n
  | JVal.jdec m e => some (Int.tdiv m ((10 : Int) ^ e))
  | JVal.jstr s => pyIntOfString s
  | JVal.jarr _ => none
  | JVal.jobj _ => none

/-- Python `str` of `dict.get(k)` as interpolated by an f-string:
a missing key prints as `None`. -/
def pyStr (o : Option String) : String :=
  o.getD "None"

/-- Python truthiness of a JSON value (`not data` tests the negation):
`None`, `False`, zero, the empty string, the empty list and the empty
dict are falsy. -/
def pyTruthy : JVal → Bool
  | JVal.jnull => false
  | JVal.jbool b => b
  | JVal.jint n => n != 0
  | JVal.jdec m _ => m != 0
  | JVal.jstr s => s != ""
  | JVal.jarr xs => !xs.isEmpty
  | JVal.jobj fs => !fs.isEmpty

/-- Whether the first character list starts the second. -/
def isPrefixChars : List Char → List Char → Bool
  | [], _ => true
  | _ :: _, [] => false
  | c :: cs, d :: ds => c = d && isPrefixChars cs ds

/-- Whether `needle` occurs as a contiguous run inside the second list. -/
def hasSubstr (needle : List Char) : List Char → Bool
  | [] => needle.isEmpty
  | c :: cs => isPrefixChars needle (c :: cs) || hasSubstr needle cs

/-- Python `key in s` for strings: substring containment. -/
def pyInStr (key s : String) : Bool :=
  hasSubstr key.toList s.toList

/-- Python `key not in data` (line 118/119 of the source, outside any
`try`): substring test on a string, element membership (string equality)
on a list, key membership on a dict; on any other value — `None`, a
number, a boolean — the `in` operator raises `TypeError`, which nothing
catches. -/
def pyNotIn (key : String) : JVal → Except PyExn Bool
  | JVal.jstr s => Except.ok (!pyInStr key s)
  | JVal.jarr xs =>
    Except.ok (!xs.any (fun v =>
      match v with
      | JVal.jstr t => t == key
      | _ => false))
  | JVal.jobj fs => Except.ok ((fs.lookup key).isNone)
  | _ => Except.error PyExn.typeError

/-- Python `data[key]`: only a dict supports string subscripting (the key
is present at every call site, membership having been checked); a string
or list body raises `TypeError` (string/list indices must be integers). -/
def pySubscript : JVal → String → Except PyExn JVal
  | JVal.jobj fs, key => Except.ok ((fs.lookup key).getD JVal.jnull)
  | _, _ => Except.error PyExn.typeError

/-- `int(data[key])` inside the `try` of lines 121-125: the `TypeError`
of subscripting a string/list body and the `ValueError`/`TypeError` of
`int()` are all caught by the handler, so the try-block outcome is just
`Option Int`. -/
def tryConvert (data : JVal) (key : String) : Option Int :=
  match pySubscript data key with
  | Except.error _ => none
  | Except.ok v => pyInt v

/-! ## Module constants (src/app.py lines 20-29) -/

def TAFSIR_SLUG_CONTEXT : String := "en-kashf-al-asrar-tafsir"
def TAFSIR_SLUG_CLASSICAL : String := "en-tafisr-ibn-kathir"
def TAFSIR_SLUG_MODERN : String := "en-tafsir-maarif-ul-quran"

/-- `TAFSIR_SOURCES` (a Python dict, iterated in insertion order). -/
def TAFSIR_SOURCES : List (String × String) :=
  [("context", TAFSIR_SLUG_CONTEXT),
   ("classical", TAFSIR_SLUG_CLASSICAL),
   ("modern", TAFSIR_SLUG_MODERN)]

def DATA_UNAVAILABLE_MESSAGE : String :=
  "Information from this source is currently unavailable or not found for this verse."

def MSG_NO_TRANSLATION : String :=
  "Could not retrieve the translation for this verse."

def MSG_TRANSLATION_NET_ERROR : String :=
  "Could not retrieve the translation due to a network error."

def MSG_NOT_INIT : String := "Groq client is not initialized. Check API key."

def MSG_MISSING : String := "Missing Surah or Ayah number"

def MSG_NOT_NUMBERS : String := "Surah and Ayah must be numbers"

def MSG_LLM_FAIL : String := "Failed to get explanation from the language model: "

/-! ## Translation fetcher (`get_ayah_text`, lines 31-44) -/

/-- Body of the `try` block of `get_ayah_text`: `requests.get`,
`raise_for_status` (raises for 4xx/5xx), `response.json()`, then
`data.get('code') == 200 and data.get('data', {}).get('text')` with
Python short-circuiting and truthiness (an empty string is falsy). -/
def ayahTry : TransResp → Except PyExn String
  | TransResp.transportError => Except.error PyExn.requestExn
  | TransResp.resp st body =>
    if 400 ≤ st ∧ st < 600 then Except.error PyExn.requestExn
    else
      match body with
      | none => Except.error PyExn.requestExn
      | some TransBody.notObj => Except.error PyExn.attrError
      | some (TransBody.obj code dataMem) =>
        if code = some 200 then
          match dataMem with
          | some TransDataMem.notObj => Except.error PyExn.attrError
          | some (TransDataMem.obj (some t)) =>
            if t = "" then Except.ok MSG_NO_TRANSLATION else Except.ok t
          | some (TransDataMem.obj none) => Except.ok MSG_NO_TRANSLATION
          | none => Except.ok MSG_NO_TRANSLATION
        else Except.ok MSG_NO_TRANSLATION

/-- `get_ayah_text` body with its `except requests.exceptions.RequestException`
handler: request-level failures become the network-error fallback; any other
exception propagates. -/
def ayahCatch (r : TransResp) : Except PyExn String :=
  match ayahTry r with
  | Except.error PyExn.requestExn => Except.ok MSG_TRANSLATION_NET_ERROR
  | Except.error e => Except.error e
  | Except.ok s => Except.ok s

/-- `get_ayah_text(surah, ayah)` against a translation-endpoint behaviour,
also returning the outbound call it makes. -/
def get_ayah_text (quran : Int → Int → TransResp) (surah ayah : Int) :
    Except PyExn String × List OutCall :=
  (ayahCatch (quran surah ayah), [OutCall.quran surah ayah])

/-! ## Commentary fetcher (`get_tafsir_data`, lines 46-60) -/

/-- Body of the per-source `try` block: `requests.get`, `raise_for_status`,
`response.json()`, then `data.get("text", "").strip()`. -/
def tafsirTryBody : TafsirResp → Except PyExn String
  | TafsirResp.transportError => Except.error PyExn.requestExn
  | TafsirResp.resp st body =>
    if 400 ≤ st ∧ st < 600 then Except.error PyExn.requestExn
    else
      match body with
      | none => Except.error PyExn.requestExn
      | some TafsirBody.notObj => Except.error PyExn.attrError
      | some (TafsirBody.obj textMem) =>
        match textMem with
        | none => Except.ok (pyStrip "")
        | some TafsirTextVal.notStr => Except.error PyExn.attrError
        | some (TafsirTextVal.str s) => Except.ok (pyStrip s)

/-- One loop iteration of `get_tafsir_data`: the stripped text if truthy,
else `DATA_UNAVAILABLE_MESSAGE`; a `RequestException` is caught and also
recorded as `DATA_UNAVAILABLE_MESSAGE`; other exceptions propagate. -/
def processSource (r : TafsirResp) : Except PyExn String :=
  match tafsirTryBody r with
  | Except.error PyExn.requestExn => Except.ok DATA_UNAVAILABLE_MESSAGE
  | Except.error e => Except.error e
  | Except.ok t => Except.ok (if t = "" then DATA_UNAVAILABLE_MESSAGE else t)

/-- The `for source_name, source_slug in TAFSIR_SOURCES.items()` loop:
`acc` is `collected_data` (an insertion-ordered dict as an assoc list),
`tr` the calls made so far; an uncaught exception aborts the loop. -/
def tafsirGo (w : String → Int → Int → TafsirResp) (surah ayah : Int) :
    List (String × String) → List (String × String) → List OutCall →
    Except PyExn (List (String × String)) × List OutCall
  | [], acc, tr => (Except.ok acc, tr)
  | (name, slug) :: rest, acc, tr =>
    match processSource (w slug surah ayah) with
    | Except.error e => (Except.error e, tr ++ [OutCall.tafsir slug surah ayah])
    | Except.ok v =>
      tafsirGo w surah ayah rest (acc ++ [(name, v)]) (tr ++ [OutCall.tafsir slug surah ayah])

/-- `get_tafsir_data(surah, ayah)` against the tafsir-endpoint behaviours,
also returning the outbound calls it makes. -/
def get_tafsir_data (w : String → Int → Int → TafsirResp) (surah ayah : Int) :
    Except PyExn (List (String × String)) × List OutCall :=
  tafsirGo w surah ayah TAFSIR_SOURCES [] []

/-! ## Prompt assembler (`generate_explanation_prompt`, lines 62-106)

The f-string is split at its interpolation points into the literal
segments `promptSeg0` .. `promptSeg8`, transcribed verbatim. -/

def promptSeg0 : String :=
  "You are a helpful and knowledgeable assistant for Quranic studies. Your primary task is to provide a clear, multi-source explanation for Surah "

def promptSeg1 : String := ", Ayah "

def promptSeg2 : String :=
  ".\n\n**Your response MUST be structured in the following order:**\n\n**1. The Verse:**\n   - Start with the heading \"### The Verse (Surah "

def promptSeg3 : String := ": Ayah "

def promptSeg4 : String :=
  ")\".\n   - Immediately after the heading, quote the English translation of the verse provided below.\n\n**2. The Explanation:**\n   - Based on the data provided, generate a detailed explanation. You must attribute every piece of information to its source using phrases like \"According to Al-Wahidi...\", \"Ibn Kathir explains that...\", etc.\n   - If the \x27Shan-e-Nazool\x27 (reason for revelation) from Al-Wahidi is available, present it first under the heading \"### Shan-e-Nazool (Reason for Revelation)\".\n   - If it is unavailable, DO NOT mention the unavailability. Simply proceed to the next section.\n   - Present the commentary from Tafsir Ibn Kathir under the heading \"### Classical Commentary: Tafsir Ibn Kathir\".\n   - Present the commentary from Maarif-ul-Quran under the heading \"### Modern Commentary: Maarif-ul-Quran\".\n\n**3. Summary:**\n   - Conclude with a brief summary under the heading \"### Summary\".\n\n---\n**DATA FOR YOUR TASK:**\n\n**[Verse Translation]:**\n"

def promptSeg5 : String := "\n\n**[Al-Wahidi\x27s Asbab Al-Nuzul]:**\n"

def promptSeg6 : String := "\n\n**[Tafsir Ibn Kathir]:**\n"

def promptSeg7 : String := "\n\n**[Maarif-ul-Quran]:**\n"

def promptSeg8 : String := "\n---\n\nBegin your response now.\n"

/-- `generate_explanation_prompt(surah, ayah, ayah_text, tafsir_data)`:
pure string interpolation; `tafsir_data.get(k)` prints `None` when the
key is absent. -/
def generate_explanation_prompt (surah ayah : Int) (ayah_text : String)
    (tafsir_data : List (String × String)) : String :=
  promptSeg0 ++ toString surah ++ promptSeg1 ++ toString ayah ++
  promptSeg2 ++ toString surah ++ promptSeg3 ++ toString ayah ++
  promptSeg4 ++ ayah_text ++
  promptSeg5 ++ pyStr (tafsir_data.lookup "context") ++
  promptSeg6 ++ pyStr (tafsir_data.lookup "classical") ++
  promptSeg7 ++ pyStr (tafsir_data.lookup "modern") ++
  promptSeg8

/-! ## Explanation service (`explain_ayah`, lines 112-143) -/

/-- Lines 127-143 of `explain_ayah` (after validation): gather the
translation and commentary, assemble the prompt, submit it; any exception
from the completion call is caught and surfaced as a 500 whose message
embeds `str(e)`. -/
def gatherAndGenerate (w : World) (surah ayah : Int) :
    Except PyExn HttpReply × List OutCall :=
  match get_ayah_text w.quran surah ayah with
  | (Except.error e, tr1) => (Except.error e, tr1)
  | (Except.ok ayah_text, tr1) =>
    match get_tafsir_data w.tafsir surah ayah with
    | (Except.error e, tr2) => (Except.error e, tr1 ++ tr2)
    | (Except.ok tafsir_data, tr2) =>
      let prompt := generate_explanation_prompt surah ayah ayah_text tafsir_data
      match w.groq prompt with
      | GroqResult.exn m =>
        (Except.ok (HttpReply.json500 (MSG_LLM_FAIL ++ m)),
         tr1 ++ (tr2 ++ [OutCall.groq prompt]))
      | GroqResult.ok text =>
        (Except.ok (HttpReply.json200 text),
         tr1 ++ (tr2 ++ [OutCall.groq prompt]))

/-- The `/explain` handler.  `clientInit` is the truthiness of the
module-level `groq_client`; `reqJson` is `request.get_json()` (`none` for
an absent / null body, otherwise any JSON value).  The checks follow the
source line by line: client initialised (line 114, before validation);
`not data or 'surah' not in data or 'ayah' not in data` (line 118) with
Python truthiness, short-circuiting, and the uncaught `TypeError` that
`in` raises on a truthy non-container body; then the `try` of lines
121-125, `int(data[...])` on both fields catching
`ValueError`/`TypeError`. -/
def explain_ayah (w : World) (clientInit : Bool) (reqJson : Option JVal) :
    Except PyExn HttpReply × List OutCall :=
  if clientInit = false then
    (Except.ok (HttpReply.json500 MSG_NOT_INIT), [])
  else
    match reqJson with
    | none => (Except.ok (HttpReply.json400 MSG_MISSING), [])
    | some data =>
      if pyTruthy data = false then
        (Except.ok (HttpReply.json400 MSG_MISSING), [])
      else
        match pyNotIn "surah" data with
        | Except.error e => (Except.error e, [])
        | Except.ok true => (Except.ok (HttpReply.json400 MSG_MISSING), [])
        | Except.ok false =>
          match pyNotIn "ayah" data with
          | Except.error e => (Except.error e, [])
          | Except.ok true => (Except.ok (HttpReply.json400 MSG_MISSING), [])
          | Except.ok false =>
            match tryConvert data "surah" with
            | none => (Except.ok (HttpReply.json400 MSG_NOT_NUMBERS), [])
            | some surah =>
              match tryConvert data "ayah" with
              | none => (Except.ok (HttpReply.json400 MSG_NOT_NUMBERS), [])
              | some ayah => gatherAndGenerate w surah ayah

/-! ## Derived observations and helper predicates -/

/-- Status code of a reply. -/
def replyStatus : HttpReply → Nat
  | HttpReply.json200 _ => 200
  | HttpReply.json400 _ => 400
  | HttpReply.json500 _ => 500

/-- Status code actually sent for a handler outcome (`none` when an
exception escaped the handler). -/
def resultStatus (x : Except PyExn HttpReply × List OutCall) : Option Nat :=
  match x.1 with
  | Except.ok r => some (replyStatus r)
  | Except.error _ => none

/-- Whether a handler outcome is a 400 reply. -/
def is400 : Except PyExn HttpReply → Bool
  | Except.ok (HttpReply.json400 _) => true
  | _ => false

/-- A translation response on which the `.get` chain cannot hit a non-dict:
any decodable body consulted by the code is an object, and its `data`
member is an object whenever the `code == 200` conjunct lets `.get('text')`
be evaluated. -/
def transShapeOK : TransResp → Bool
  | TransResp.transportError => true
  | TransResp.resp st body =>
    if 400 ≤ st ∧ st < 600 then true
    else
      match body with
      | none => true
      | some TransBody.notObj => false
      | some (TransBody.obj code dataMem) =>
        if code = some 200 then
          match dataMem with
          | some TransDataMem.notObj => false
          | _ => true
        else true

/-- A tafsir response whose per-source processing completes without an
uncaught exception. -/
def sourceOk (r : TafsirResp) : Bool :=
  match processSource r with
  | Except.ok _ => true
  | Except.error _ => false

/-- The value recorded for a source when its processing completes. -/
def sourceVal (r : TafsirResp) : String :=
  match processSource r with
  | Except.ok v => v
  | Except.error _ => DATA_UNAVAILABLE_MESSAGE

/-- The three commentary calls of one `get_tafsir_data` run. -/
def tafsirTrace (surah ayah : Int) : List OutCall :=
  [OutCall.tafsir TAFSIR_SLUG_CONTEXT surah ayah,
   OutCall.tafsir TAFSIR_SLUG_CLASSICAL surah ayah,
   OutCall.tafsir TAFSIR_SLUG_MODERN surah ayah]

/-- A request body that the validation step rejects with a 400: absent or
null, falsy (`{}`, `0`, `false`, `""`, `[]`), a container whose `surah`
or `ayah` membership test comes back missing, or one where the `try` of
`int(data[...])` fails (a non-convertible object value, or a string/list
body whose subscripting raises the caught `TypeError`).  Truthy
number/boolean bodies are deliberately *not* here: on those the
membership test itself raises an uncaught `TypeError`. -/
def badRequest (reqJson : Option JVal) : Prop :=
  reqJson = none ∨
  ∃ data, reqJson = some data ∧
    (pyTruthy data = false ∨
     pyNotIn "surah" data = Except.ok true ∨
     (pyNotIn "surah" data = Except.ok false ∧
      pyNotIn "ayah" data = Except.ok true) ∨
     (pyNotIn "surah" data = Except.ok false ∧
      pyNotIn "ayah" data = Except.ok false ∧
      (tryConvert data "surah" = none ∨
       ∃ s, tryConvert data "surah" = some s ∧ tryConvert data "ayah" = none)))

/-! ## Concrete endpoint behaviours used as inputs of witnesses and
counterexamples -/

/-- Translation endpoint answering 200 with a well-formed body. -/
def wTransGood : Int → Int → TransResp := fun _ _ =>
  TransResp.resp 200 (some (TransBody.obj (some 200)
    (some (TransDataMem.obj (some "In the name of God, the Most Gracious, the Most Merciful.")))))

/-- Translation endpoint answering 200 with a decodable body that is not a
JSON object (for example a JSON array). -/
def wTransArr : Int → Int → TransResp := fun _ _ =>
  TransResp.resp 200 (some TransBody.notObj)

/-- Tafsir endpoints answering 200 with a well-formed body. -/
def wTafGoodF : String → Int → Int → TafsirResp := fun _ _ _ =>
  TafsirResp.resp 200 (some (TafsirBody.obj (some (TafsirTextVal.str "Commentary text."))))

/-- Tafsir endpoints answering 200 with `text` bound to a non-string
(for example `null`). -/
def wTafNullText : String → Int → Int → TafsirResp := fun _ _ _ =>
  TafsirResp.resp 200 (some (TafsirBody.obj (some TafsirTextVal.notStr)))

/-- Tafsir endpoints where only the `context` source is unreachable. -/
def wTafCtxDown : String → Int → Int → TafsirResp := fun slug _ _ =>
  if slug = TAFSIR_SLUG_CONTEXT then TafsirResp.transportError
  else TafsirResp.resp 200 (some (TafsirBody.obj (some (TafsirTextVal.str "Commentary text."))))

/-- Tafsir endpoints answering 200 with whitespace-only `text`. -/
def wTafBlank : String → Int → Int → TafsirResp := fun _ _ _ =>
  TafsirResp.resp 200 (some (TafsirBody.obj (some (TafsirTextVal.str " \t "))))

/-- World where every fetch fails at the transport level and the
completion call raises with message `boom`. -/
def wFail : World :=
  { quran := fun _ _ => TransResp.transportError,
    tafsir := fun _ _ _ => TafsirResp.transportError,
    groq := fun _ => GroqResult.exn "boom" }

/-- World where everything succeeds and the completion call returns
`A clear explanation.`. -/
def wOk : World :=
  { quran := wTransGood, tafsir := wTafGoodF,
    groq := fun _ => GroqResult.ok "A clear explanation." }

/-! ## Helper lemmas -/

lemma sourceOk_processSource {r : TafsirResp} (h : sourceOk r = true) :
    processSource r = Except.ok (sourceVal r) := by
  unfold sourceOk sourceVal at *
  cases hp : processSource r with
  | ok v => simp
  | error e => rw [hp] at h; simp at h

lemma sourceVal_eq {r : TafsirResp} {v : String}
    (h : processSource r = Except.ok v) : sourceVal r = v := by
  unfold sourceVal
  rw [h]

lemma processSource_ok_ne {r : TafsirResp} {v : String}
    (h : processSource r = Except.ok v) : v ≠ "" := by
  unfold processSource at h
  cases ht : tafsirTryBody r with
  | error e =>
    rw [ht] at h
    cases e with
    | requestExn =>
      simp at h
      subst h
      decide
    | attrError => simp at h
    | typeError => simp at h
  | ok t =>
    rw [ht] at h
    simp at h
    by_cases hz : t = ""
    · rw [if_pos hz] at h; subst h; decide
    · rw [if_neg hz] at h; subst h; exact hz

lemma processSource_reqExn {r : TafsirResp}
    (h : tafsirTryBody r = Except.error PyExn.requestExn) :
    processSource r = Except.ok DATA_UNAVAILABLE_MESSAGE := by
  unfold processSource
  rw [h]

lemma tafsir_all_ok (w : String → Int → Int → TafsirResp) (s a : Int)
    (v1 v2 v3 : String)
    (h1 : processSource (w TAFSIR_SLUG_CONTEXT s a) = Except.ok v1)
    (h2 : processSource (w TAFSIR_SLUG_CLASSICAL s a) = Except.ok v2)
    (h3 : processSource (w TAFSIR_SLUG_MODERN s a) = Except.ok v3) :
    get_tafsir_data w s a =
      (Except.ok [("context", v1), ("classical", v2), ("modern", v3)],
       tafsirTrace s a) := by
  simp [get_tafsir_data, TAFSIR_SOURCES, tafsirGo, h1, h2, h3, tafsirTrace]

lemma explain_valid (w : World) (d : List (String × JVal)) (vs va : JVal)
    (s a : Int)
    (h1 : d.lookup "surah" = some vs) (h2 : d.lookup "ayah" = some va)
    (h3 : pyInt vs = some s) (h4 : pyInt va = some a) :
    explain_ayah w true (some (JVal.jobj d)) = gatherAndGenerate w s a := by
  have hne : d.isEmpty = false := by
    cases d with
    | nil => simp [List.lookup] at h1
    | cons p rest => rfl
  simp [explain_ayah, pyTruthy, pyNotIn, tryConvert, pySubscript,
    hne, h1, h2, h3, h4]

lemma gather_result_fst (w : World) (s a : Int) (t : String)
    (td : List (String × String))
    (hq : (get_ayah_text w.quran s a).1 = Except.ok t)
    (ht : (get_tafsir_data w.tafsir s a).1 = Except.ok td) :
    (gatherAndGenerate w s a).1 =
      (match w.groq (generate_explanation_prompt s a t td) with
       | GroqResult.exn m => Except.ok (HttpReply.json500 (MSG_LLM_FAIL ++ m))
       | GroqResult.ok x => Except.ok (HttpReply.json200 x)) := by
  have hq' : ayahCatch (w.quran s a) = Except.ok t := hq
  rcases hg : get_tafsir_data w.tafsir s a with ⟨g1, g2⟩
  rw [hg] at ht
  simp at ht
  subst ht
  cases hgr : w.groq (generate_explanation_prompt s a t td) <;>
    simp [gatherAndGenerate, get_ayah_text, hq', hg, hgr]

lemma gather_head (w : World) (s a : Int) :
    (gatherAndGenerate w s a).2.head? = some (OutCall.quran s a) := by
  unfold gatherAndGenerate get_ayah_text
  rcases hg : get_tafsir_data w.tafsir s a with ⟨g1, g2⟩
  cases hc : ayahCatch (w.quran s a) with
  | error e => simp [hc]
  | ok t =>
    cases g1 with
    | error e => simp [hc, hg]
    | ok td =>
      cases hgr : w.groq (generate_explanation_prompt s a t td) <;>
        simp [hc, hg, hgr]

lemma gather_no_400 (w : World) (s a : Int) :
    is400 (gatherAndGenerate w s a).1 = false := by
  unfold gatherAndGenerate get_ayah_text
  rcases hg : get_tafsir_data w.tafsir s a with ⟨g1, g2⟩
  cases hc : ayahCatch (w.quran s a) with
  | error e => simp [hc, is400]
  | ok t =>
    cases g1 with
    | error e => simp [hc, hg, is400]
    | ok td =>
      cases hgr : w.groq (generate_explanation_prompt s a t td) <;>
        simp [hc, hg, hgr, is400]

/-! ## Claim C7 -/

/-- C7: `generate_explanation_prompt` is a pure function of its four
arguments (determinism is the function equation itself); whenever the
commentary map carries the three keys, the output is the fixed literal
segments with the chapter number, verse number, translation text and the
three commentary texts interpolated, in the fixed order translation,
context, classical, modern. -/
theorem c7_prompt_layout (surah ayah : Int) (ayah_text : String)
    (tafsir_data : List (String × String)) (c k m : String)
    (h1 : tafsir_data.lookup "context" = some c)
    (h2 : tafsir_data.lookup "classical" = some k)
    (h3 : tafsir_data.lookup "modern" = some m) :
    generate_explanation_prompt surah ayah ayah_text tafsir_data =
      promptSeg0 ++ toString surah ++ promptSeg1 ++ toString ayah ++
      promptSeg2 ++ toString surah ++ promptSeg3 ++ toString ayah ++
      promptSeg4 ++ ayah_text ++ promptSeg5 ++ c ++ promptSeg6 ++ k ++
      promptSeg7 ++ m ++ promptSeg8 := by
  simp [generate_explanation_prompt, h1, h2, h3, pyStr]

/-- Witness for C7 at concrete inputs. -/
theorem c7_prompt_layout_witness :
    generate_explanation_prompt 2 255 "God: there is no deity save Him."
      [("context", "ctx text"), ("classical", "cls text"), ("modern", "mod text")] =
      promptSeg0 ++ toString (2 : Int) ++ promptSeg1 ++ toString (255 : Int) ++
      promptSeg2 ++ toString (2 : Int) ++ promptSeg3 ++ toString (255 : Int) ++
      promptSeg4 ++ "God: there is no deity save Him." ++ promptSeg5 ++ "ctx text" ++
      promptSeg6 ++ "cls text" ++ promptSeg7 ++ "mod text" ++ promptSeg8 :=
  c7_prompt_layout 2 255 _ _ "ctx text" "cls text" "mod text" rfl rfl rfl

/-! ## Claim C1 -/

/-- C1 (amended): when the completion client was initialised, a request
whose body validation rejects — absent/null, falsy, a container missing
`surah` or `ayah`, or one whose `int(data[...])` fails — gets a 400 reply
and no outbound call is made; when the client was not initialised, the
same request instead gets the 500 client-not-initialised reply (still
with no outbound calls), because the client check precedes validation.
(A truthy number/boolean body is outside `badRequest`: there the
membership test raises an uncaught `TypeError` — see the counterexample.) -/
theorem c1_badInput_rejected (w : World) (reqJson : Option JVal)
    (h : badRequest reqJson) :
    (∃ msg, explain_ayah w true reqJson = (Except.ok (HttpReply.json400 msg), [])) ∧
    explain_ayah w false reqJson = (Except.ok (HttpReply.json500 MSG_NOT_INIT), []) := by
  refine ⟨?_, rfl⟩
  rcases h with hnone | ⟨data, hd, hcase⟩
  · subst hnone
    exact ⟨MSG_MISSING, rfl⟩
  · subst hd
    rcases hcase with hfalsy | hs | ⟨hs, ha⟩ | ⟨hs, ha, hconv⟩
    · exact ⟨MSG_MISSING, by simp [explain_ayah, hfalsy]⟩
    · cases htv : pyTruthy data with
      | false => exact ⟨MSG_MISSING, by simp [explain_ayah, htv]⟩
      | true => exact ⟨MSG_MISSING, by simp [explain_ayah, htv, hs]⟩
    · cases htv : pyTruthy data with
      | false => exact ⟨MSG_MISSING, by simp [explain_ayah, htv]⟩
      | true => exact ⟨MSG_MISSING, by simp [explain_ayah, htv, hs, ha]⟩
    · rcases hconv with hcs | ⟨s, hcs, hca⟩
      · cases htv : pyTruthy data with
        | false => exact ⟨MSG_MISSING, by simp [explain_ayah, htv]⟩
        | true =>
          exact ⟨MSG_NOT_NUMBERS, by simp [explain_ayah, htv, hs, ha, hcs]⟩
      · cases htv : pyTruthy data with
        | false => exact ⟨MSG_MISSING, by simp [explain_ayah, htv]⟩
        | true =>
          exact ⟨MSG_NOT_NUMBERS, by simp [explain_ayah, htv, hs, ha, hcs, hca]⟩

/-- Counterexample for C1 as stated, in both directions it fails.  With
the completion client not initialised, a request with body `{}` (missing
both fields) is answered 500, not 400 — the code checks the client before
validating.  And even with the client initialised, a request whose body is
the JSON number `5` or `true` (also missing both fields) makes
`'surah' not in data` raise an uncaught `TypeError`, so the reply is an
unstructured 500, not a 400.  In every case no outbound call is made. -/
theorem c1_uninit_counterexample :
    resultStatus (explain_ayah wFail false (some (JVal.jobj []))) = some 500 ∧
    is400 (explain_ayah wFail false (some (JVal.jobj []))).1 = false ∧
    (explain_ayah wFail false (some (JVal.jobj []))).1 =
      Except.ok (HttpReply.json500 MSG_NOT_INIT) ∧
    (explain_ayah wFail false (some (JVal.jobj []))).2 = [] ∧
    (explain_ayah wFail true (some (JVal.jint 5))).1 =
      Except.error PyExn.typeError ∧
    is400 (explain_ayah wFail true (some (JVal.jint 5))).1 = false ∧
    (explain_ayah wFail true (some (JVal.jint 5))).2 = [] ∧
    (explain_ayah wFail true (some (JVal.jbool true))).1 =
      Except.error PyExn.typeError :=
  ⟨rfl, rfl, rfl, rfl, rfl, rfl, rfl, rfl⟩

/-- Witness for C1 (amended) at a non-numeric `surah`. -/
theorem c1_badInput_witness :
    (∃ msg, explain_ayah wFail true
        (some (JVal.jobj [("surah", JVal.jstr "x"), ("ayah", JVal.jint 1)])) =
        (Except.ok (HttpReply.json400 msg), [])) ∧
    explain_ayah wFail false
        (some (JVal.jobj [("surah", JVal.jstr "x"), ("ayah", JVal.jint 1)])) =
      (Except.ok (HttpReply.json500 MSG_NOT_INIT), []) :=
  c1_badInput_rejected wFail _
    (Or.inr ⟨_, rfl, Or.inr (Or.inr (Or.inr ⟨rfl, rfl, Or.inl rfl⟩))⟩)

/-! ## Claim C5 -/

/-- Counterexample for C5: the body `{"surah": -1, "ayah": 0}` passes
validation (both values convert to integers) and the translation fetcher
is invoked with the non-positive pair (-1, 0) — no positivity validation
happens anywhere. -/
theorem c5_nonpositive_counterexample :
    (explain_ayah wFail true
      (some (JVal.jobj [("surah", JVal.jint (-1)), ("ayah", JVal.jint 0)]))).2.head? =
      some (OutCall.quran (-1) 0) := rfl

/-- C5 (amended): validation only requires `int()`-convertibility; for any
body whose `surah`/`ayah` convert to integers `s`/`a` — positive or not —
the fetchers are invoked with exactly those values (the first outbound
call is the translation fetch for `(s, a)`). -/
theorem c5_int_conversion_only (w : World) (d : List (String × JVal))
    (vs va : JVal) (s a : Int)
    (h1 : d.lookup "surah" = some vs) (h2 : d.lookup "ayah" = some va)
    (h3 : pyInt vs = some s) (h4 : pyInt va = some a) :
    (explain_ayah w true (some (JVal.jobj d))).2.head? = some (OutCall.quran s a) := by
  rw [explain_valid w d vs va s a h1 h2 h3 h4]
  exact gather_head w s a

/-- Witness for C5 (amended) at negative values. -/
theorem c5_int_conversion_witness :
    (explain_ayah wFail true
      (some (JVal.jobj [("surah", JVal.jint (-3)), ("ayah", JVal.jint (-7))]))).2.head? =
      some (OutCall.quran (-3) (-7)) :=
  c5_int_conversion_only wFail _ _ _ (-3) (-7) rfl rfl rfl rfl

/-! ## Claim C10 -/

/-- Request body with a float-valued `surah` (the JSON literal 2.9). -/
def bodyFloatSurah : JVal :=
  JVal.jobj [("surah", JVal.jdec 29 1), ("ayah", JVal.jint 1)]

/-- Request body with a boolean `surah`. -/
def bodyBoolSurah : JVal :=
  JVal.jobj [("surah", JVal.jbool true), ("ayah", JVal.jint 1)]

/-- C10: validation accepts exactly what Python `int()` accepts: the float
2.9 truncates toward zero to chapter 2, booleans convert to 0/1, and both
such requests proceed to the fetchers (the translation fetch happens with
the converted value) instead of being rejected with a 400. -/
theorem c10_python_int_coercion (w : World) :
    pyInt (JVal.jdec 29 1) = some 2 ∧
    pyInt (JVal.jbool true) = some 1 ∧
    pyInt (JVal.jbool false) = some 0 ∧
    (explain_ayah w true (some bodyFloatSurah)).2.head? = some (OutCall.quran 2 1) ∧
    is400 (explain_ayah w true (some bodyFloatSurah)).1 = false ∧
    (explain_ayah w true (some bodyBoolSurah)).2.head? = some (OutCall.quran 1 1) ∧
    is400 (explain_ayah w true (some bodyBoolSurah)).1 = false := by
  have hf := explain_valid w [("surah", JVal.jdec 29 1), ("ayah", JVal.jint 1)]
    (JVal.jdec 29 1) (JVal.jint 1) 2 1 rfl rfl (by decide) rfl
  have hb := explain_valid w [("surah", JVal.jbool true), ("ayah", JVal.jint 1)]
    (JVal.jbool true) (JVal.jint 1) 1 1 rfl rfl rfl rfl
  refine ⟨by decide, rfl, rfl, ?_, ?_, ?_, ?_⟩
  · simp only [bodyFloatSurah]; rw [hf]; exact gather_head w 2 1
  · simp only [bodyFloatSurah]; rw [hf]; exact gather_no_400 w 2 1
  · simp only [bodyBoolSurah]; rw [hb]; exact gather_head w 1 1
  · simp only [bodyBoolSurah]; rw [hb]; exact gather_no_400 w 1 1

/-- Witness for C10 at the all-failing world. -/
theorem c10_python_int_coercion_witness :
    pyInt (JVal.jdec 29 1) = some 2 ∧
    pyInt (JVal.jbool true) = some 1 ∧
    pyInt (JVal.jbool false) = some 0 ∧
    (explain_ayah wFail true (some bodyFloatSurah)).2.head? = some (OutCall.quran 2 1) ∧
    is400 (explain_ayah wFail true (some bodyFloatSurah)).1 = false ∧
    (explain_ayah wFail true (some bodyBoolSurah)).2.head? = some (OutCall.quran 1 1) ∧
    is400 (explain_ayah wFail true (some bodyBoolSurah)).1 = false :=
  c10_python_int_coercion wFail

/-! ## Claim C2 -/

lemma ayahCatch_shape (r : TransResp) (h : transShapeOK r = true) :
    ∃ t, ayahCatch r = Except.ok t ∧
      (t = MSG_NO_TRANSLATION ∨ t = MSG_TRANSLATION_NET_ERROR ∨
       ∃ st b, r = TransResp.resp st (some (TransBody.obj (some 200)
         (some (TransDataMem.obj (some b))))) ∧ t = b) := by
  cases r with
  | transportError => exact ⟨MSG_TRANSLATION_NET_ERROR, rfl, Or.inr (Or.inl rfl)⟩
  | resp st body =>
    by_cases hst : 400 ≤ st ∧ st < 600
    · exact ⟨MSG_TRANSLATION_NET_ERROR,
        by simp [ayahCatch, ayahTry, hst], Or.inr (Or.inl rfl)⟩
    · cases body with
      | none => exact ⟨MSG_TRANSLATION_NET_ERROR,
          by simp [ayahCatch, ayahTry, hst], Or.inr (Or.inl rfl)⟩
      | some b =>
        cases b with
        | notObj => simp [transShapeOK, hst] at h
        | obj code dataMem =>
          by_cases hc : code = some 200
          · cases dataMem with
            | none => exact ⟨MSG_NO_TRANSLATION,
                by simp [ayahCatch, ayahTry, hst, hc], Or.inl rfl⟩
            | some dm =>
              cases dm with
              | notObj => simp [transShapeOK, hst, hc] at h
              | obj txt =>
                cases txt with
                | none => exact ⟨MSG_NO_TRANSLATION,
                    by simp [ayahCatch, ayahTry, hst, hc], Or.inl rfl⟩
                | some t =>
                  by_cases hz : t = ""
                  · exact ⟨MSG_NO_TRANSLATION,
                      by simp [ayahCatch, ayahTry, hst, hc, hz], Or.inl rfl⟩
                  · subst hc
                    exact ⟨t, by simp [ayahCatch, ayahTry, hst, hz],
                      Or.inr (Or.inr ⟨st, t, rfl, rfl⟩)⟩
          · exact ⟨MSG_NO_TRANSLATION,
              by simp [ayahCatch, ayahTry, hst, hc], Or.inl rfl⟩

/-- C2 (amended): `get_ayah_text` never raises for transport failures,
timeouts, non-success status codes, undecodable bodies, or bodies missing
the expected fields — whenever the `.get` chain does not meet a non-object
(`transShapeOK`), the call returns either the fetched text or one of the
two fixed fallback strings.  (A decoded body whose top level, or whose
`data` member when consulted, is not a JSON object makes the function
raise `AttributeError`; see the counterexample.) -/
theorem c2_fetch_translation_total (quran : Int → Int → TransResp)
    (surah ayah : Int) (h : transShapeOK (quran surah ayah) = true) :
    ∃ t, (get_ayah_text quran surah ayah).1 = Except.ok t ∧
      (t = MSG_NO_TRANSLATION ∨ t = MSG_TRANSLATION_NET_ERROR ∨
       ∃ st b, quran surah ayah = TransResp.resp st (some (TransBody.obj
         (some 200) (some (TransDataMem.obj (some b))))) ∧ t = b) :=
  ayahCatch_shape (quran surah ayah) h

/-- Counterexample for C2 as stated: a 200 response whose (well-formed
JSON) body is not an object — for example a JSON array — makes
`data.get('code')` raise `AttributeError`, which the
`except requests.exceptions.RequestException` clause does not catch, so
`get_ayah_text` raises instead of returning a fallback string. -/
theorem c2_nonobject_body_counterexample :
    (get_ayah_text wTransArr 1 1).1 = Except.error PyExn.attrError := rfl

/-- Witness for C2 (amended) at a well-formed 200 response. -/
theorem c2_fetch_translation_witness :
    ∃ t, (get_ayah_text wTransGood 3 4).1 = Except.ok t ∧
      (t = MSG_NO_TRANSLATION ∨ t = MSG_TRANSLATION_NET_ERROR ∨
       ∃ st b, wTransGood 3 4 = TransResp.resp st (some (TransBody.obj
         (some 200) (some (TransDataMem.obj (some b))))) ∧ t = b) :=
  c2_fetch_translation_total wTransGood 3 4 rfl

/-! ## Claim C3 -/

/-- C3: a request-level failure (transport error, timeout, 4xx/5xx status,
undecodable body) of any one commentary source neither raises out of
`get_tafsir_data` nor stops the loop: provided each source's own
processing completes (`sourceOk`), all three sources are fetched
(the trace is the full `tafsirTrace`), the failed source's key carries
`DATA_UNAVAILABLE_MESSAGE`, and every key carries the value determined by
its own source's response alone. -/
theorem c3_source_failure_isolated (w : String → Int → Int → TafsirResp)
    (s a : Int) (name slug : String)
    (hmem : (name, slug) ∈ TAFSIR_SOURCES)
    (hfail : tafsirTryBody (w slug s a) = Except.error PyExn.requestExn)
    (hb1 : sourceOk (w TAFSIR_SLUG_CONTEXT s a) = true)
    (hb2 : sourceOk (w TAFSIR_SLUG_CLASSICAL s a) = true)
    (hb3 : sourceOk (w TAFSIR_SLUG_MODERN s a) = true) :
    ∃ res, get_tafsir_data w s a = (Except.ok res, tafsirTrace s a) ∧
      res.lookup name = some DATA_UNAVAILABLE_MESSAGE ∧
      res.lookup "context" = some (sourceVal (w TAFSIR_SLUG_CONTEXT s a)) ∧
      res.lookup "classical" = some (sourceVal (w TAFSIR_SLUG_CLASSICAL s a)) ∧
      res.lookup "modern" = some (sourceVal (w TAFSIR_SLUG_MODERN s a)) := by
  have e1 := sourceOk_processSource hb1
  have e2 := sourceOk_processSource hb2
  have e3 := sourceOk_processSource hb3
  refine ⟨[("context", sourceVal (w TAFSIR_SLUG_CONTEXT s a)),
           ("classical", sourceVal (w TAFSIR_SLUG_CLASSICAL s a)),
           ("modern", sourceVal (w TAFSIR_SLUG_MODERN s a))],
          tafsir_all_ok w s a _ _ _ e1 e2 e3, ?_, rfl, rfl, rfl⟩
  have hDU : sourceVal (w slug s a) = DATA_UNAVAILABLE_MESSAGE :=
    sourceVal_eq (processSource_reqExn hfail)
  simp only [TAFSIR_SOURCES, List.mem_cons, List.mem_singleton,
    List.not_mem_nil, or_false, Prod.mk.injEq] at hmem
  rcases hmem with ⟨hn, hs⟩ | ⟨hn, hs⟩ | ⟨hn, hs⟩ <;> subst hn <;> subst hs <;>
    rw [hDU] <;> rfl

/-- Witness for C3 with the `context` source unreachable and the other two
healthy. -/
theorem c3_source_failure_witness :
    ∃ res, get_tafsir_data wTafCtxDown 1 1 = (Except.ok res, tafsirTrace 1 1) ∧
      res.lookup "context" = some DATA_UNAVAILABLE_MESSAGE ∧
      res.lookup "context" = some (sourceVal (wTafCtxDown TAFSIR_SLUG_CONTEXT 1 1)) ∧
      res.lookup "classical" = some (sourceVal (wTafCtxDown TAFSIR_SLUG_CLASSICAL 1 1)) ∧
      res.lookup "modern" = some (sourceVal (wTafCtxDown TAFSIR_SLUG_MODERN 1 1)) :=
  c3_source_failure_isolated wTafCtxDown 1 1 "context" TAFSIR_SLUG_CONTEXT
    (by simp [TAFSIR_SOURCES]) rfl rfl rfl rfl

/-! ## Claim C4 -/

/-- Counterexample for C4 as stated: if the `context` source answers 200
with `{"text": null}`, `.strip()` on the non-string raises
`AttributeError`, `get_tafsir_data` raises instead of returning a mapping,
and the remaining two sources are not fetched (the trace stops after the
first call). -/
theorem c4_nonstring_text_counterexample :
    (get_tafsir_data wTafNullText 1 1).1 = Except.error PyExn.attrError ∧
    (get_tafsir_data wTafNullText 1 1).2 = [OutCall.tafsir TAFSIR_SLUG_CONTEXT 1 1] :=
  ⟨rfl, rfl⟩

/-- C4 (amended): provided each source's response is either a
request-level failure or a JSON object whose `text` member is absent or a
string (each source's processing completes, `sourceOk`), `get_tafsir_data`
returns a mapping with exactly the three fixed keys in order, each bound
to a non-empty string (fetched text or `DATA_UNAVAILABLE_MESSAGE`). -/
theorem c4_three_keys (w : String → Int → Int → TafsirResp) (s a : Int)
    (hb1 : sourceOk (w TAFSIR_SLUG_CONTEXT s a) = true)
    (hb2 : sourceOk (w TAFSIR_SLUG_CLASSICAL s a) = true)
    (hb3 : sourceOk (w TAFSIR_SLUG_MODERN s a) = true) :
    ∃ res, (get_tafsir_data w s a).1 = Except.ok res ∧
      res.map Prod.fst = ["context", "classical", "modern"] ∧
      res.all (fun p => p.2 != "") = true := by
  have e1 := sourceOk_processSource hb1
  have e2 := sourceOk_processSource hb2
  have e3 := sourceOk_processSource hb3
  have n1 := processSource_ok_ne e1
  have n2 := processSource_ok_ne e2
  have n3 := processSource_ok_ne e3
  refine ⟨[("context", sourceVal (w TAFSIR_SLUG_CONTEXT s a)),
           ("classical", sourceVal (w TAFSIR_SLUG_CLASSICAL s a)),
           ("modern", sourceVal (w TAFSIR_SLUG_MODERN s a))],
          by rw [tafsir_all_ok w s a _ _ _ e1 e2 e3], rfl, ?_⟩
  simp [List.all_cons, bne_iff_ne, n1, n2, n3]

/-- Witness for C4 with all three sources healthy. -/
theorem c4_three_keys_witness :
    ∃ res, (get_tafsir_data wTafGoodF 1 1).1 = Except.ok res ∧
      res.map Prod.fst = ["context", "classical", "modern"] ∧
      res.all (fun p => p.2 != "") = true :=
  c4_three_keys wTafGoodF 1 1 rfl rfl rfl

/-! ## Claim C6 -/

/-- C6: a successful (non-error status) commentary response whose `text`
is empty or whitespace-only yields `DATA_UNAVAILABLE_MESSAGE` for that
key, never the empty/whitespace string (the other sources assumed to
complete as well, so that the function returns). -/
theorem c6_blank_text_fallback (w : String → Int → Int → TafsirResp)
    (s a : Int) (name slug : String) (st : Nat) (t : String)
    (hmem : (name, slug) ∈ TAFSIR_SOURCES)
    (hresp : w slug s a =
      TafsirResp.resp st (some (TafsirBody.obj (some (TafsirTextVal.str t)))))
    (hst : st < 400) (hblank : pyStrip t = "")
    (hb1 : sourceOk (w TAFSIR_SLUG_CONTEXT s a) = true)
    (hb2 : sourceOk (w TAFSIR_SLUG_CLASSICAL s a) = true)
    (hb3 : sourceOk (w TAFSIR_SLUG_MODERN s a) = true) :
    ∃ res, (get_tafsir_data w s a).1 = Except.ok res ∧
      res.lookup name = some DATA_UNAVAILABLE_MESSAGE ∧
      (DATA_UNAVAILABLE_MESSAGE == "") = false := by
  have e1 := sourceOk_processSource hb1
  have e2 := sourceOk_processSource hb2
  have e3 := sourceOk_processSource hb3
  have hps : processSource (w slug s a) = Except.ok DATA_UNAVAILABLE_MESSAGE := by
    rw [hresp]
    have hn : ¬(400 ≤ st ∧ st < 600) := by omega
    simp [processSource, tafsirTryBody, hn, hblank]
  have hDU : sourceVal (w slug s a) = DATA_UNAVAILABLE_MESSAGE := sourceVal_eq hps
  refine ⟨[("context", sourceVal (w TAFSIR_SLUG_CONTEXT s a)),
           ("classical", sourceVal (w TAFSIR_SLUG_CLASSICAL s a)),
           ("modern", sourceVal (w TAFSIR_SLUG_MODERN s a))],
          by rw [tafsir_all_ok w s a _ _ _ e1 e2 e3], ?_, by decide⟩
  simp only [TAFSIR_SOURCES, List.mem_cons, List.mem_singleton,
    List.not_mem_nil, or_false, Prod.mk.injEq] at hmem
  rcases hmem with ⟨hn, hs⟩ | ⟨hn, hs⟩ | ⟨hn, hs⟩ <;> subst hn <;> subst hs <;>
    rw [hDU] <;> rfl

/-- Witness for C6 with every source answering 200 and whitespace-only
text. -/
theorem c6_blank_text_witness :
    ∃ res, (get_tafsir_data wTafBlank 1 1).1 = Except.ok res ∧
      res.lookup "context" = some DATA_UNAVAILABLE_MESSAGE ∧
      (DATA_UNAVAILABLE_MESSAGE == "") = false :=
  c6_blank_text_fallback wTafBlank 1 1 "context" TAFSIR_SLUG_CONTEXT 200 " \t "
    (by simp [TAFSIR_SOURCES]) rfl (by decide) rfl rfl rfl rfl

/-! ## Claims C8 and C9 -/

/-- C8: for a valid body, if the completion call raises with message `m`,
the handler returns (no exception escapes) a 500 reply whose error message
is the fixed text followed by `m` — it contains the underlying cause. -/
theorem c8_generation_failure_500 (w : World) (d : List (String × JVal))
    (vs va : JVal) (s a : Int) (t : String) (td : List (String × String))
    (m : String)
    (h1 : d.lookup "surah" = some vs) (h2 : d.lookup "ayah" = some va)
    (h3 : pyInt vs = some s) (h4 : pyInt va = some a)
    (hq : (get_ayah_text w.quran s a).1 = Except.ok t)
    (ht : (get_tafsir_data w.tafsir s a).1 = Except.ok td)
    (hg : w.groq (generate_explanation_prompt s a t td) = GroqResult.exn m) :
    (explain_ayah w true (some (JVal.jobj d))).1 =
      Except.ok (HttpReply.json500 (MSG_LLM_FAIL ++ m)) := by
  rw [explain_valid w d vs va s a h1 h2 h3 h4,
    gather_result_fst w s a t td hq ht, hg]

/-- The commentary result when all three sources are unreachable. -/
def tdAllUnavailable : List (String × String) :=
  [("context", DATA_UNAVAILABLE_MESSAGE),
   ("classical", DATA_UNAVAILABLE_MESSAGE),
   ("modern", DATA_UNAVAILABLE_MESSAGE)]

/-- Witness for C8: all fetches fail (absorbed into fallbacks), the
completion call raises `boom`, and the reply is the 500 with `boom`
embedded. -/
theorem c8_generation_failure_witness :
    (explain_ayah wFail true
      (some (JVal.jobj [("surah", JVal.jint 1), ("ayah", JVal.jint 1)]))).1 =
      Except.ok (HttpReply.json500 (MSG_LLM_FAIL ++ "boom")) :=
  c8_generation_failure_500 wFail _ _ _ 1 1 MSG_TRANSLATION_NET_ERROR
    tdAllUnavailable "boom" rfl rfl rfl rfl rfl rfl rfl

/-- C9: for a valid body, when the completion call succeeds with `text`,
the handler replies 200 with exactly that string as the explanation. -/
theorem c9_generation_success_verbatim (w : World) (d : List (String × JVal))
    (vs va : JVal) (s a : Int) (t : String) (td : List (String × String))
    (text : String)
    (h1 : d.lookup "surah" = some vs) (h2 : d.lookup "ayah" = some va)
    (h3 : pyInt vs = some s) (h4 : pyInt va = some a)
    (hq : (get_ayah_text w.quran s a).1 = Except.ok t)
    (ht : (get_tafsir_data w.tafsir s a).1 = Except.ok td)
    (hg : w.groq (generate_explanation_prompt s a t td) = GroqResult.ok text) :
    (explain_ayah w true (some (JVal.jobj d))).1 =
      Except.ok (HttpReply.json200 text) := by
  rw [explain_valid w d vs va s a h1 h2 h3 h4,
    gather_result_fst w s a t td hq ht, hg]

/-- The commentary result when all three sources answer with the healthy
test text. -/
def tdAllGood : List (String × String) :=
  [("context", "Commentary text."),
   ("classical", "Commentary text."),
   ("modern", "Commentary text.")]

/-- Witness for C9: all fetches succeed and the completion returns
`A clear explanation.`, which the reply carries verbatim. -/
theorem c9_generation_success_witness :
    (explain_ayah wOk true
      (some (JVal.jobj [("surah", JVal.jint 2), ("ayah", JVal.jint 255)]))).1 =
      Except.ok (HttpReply.json200 "A clear explanation.") :=
  c9_generation_success_verbatim wOk _ _ _ 2 255
    "In the name of God, the Most Gracious, the Most Merciful."
    tdAllGood "A clear explanation." rfl rfl rfl rfl rfl rfl rfl
